import Mathlib

set_option autoImplicit false

/-
Verification of the prediction request pipeline of the diabetes-prediction
backend: the field validator (backend/middleware/validation.js), the single
prediction orchestrator, the error classifier and the batch orchestrator
(backend/routes/prediction.js).

JavaScript numbers are modelled as rationals: every range constant in the
source and every value exercised here is an exactly representable decimal,
so no floating-point rounding is observable in the modelled fragment.
-/

namespace DiabetesPrediction

/-- JavaScript values as they occur in a parsed JSON request body, restricted
to the primitive shapes the validator inspects. `undefined` stands for an
absent property. -/
inductive JSValue where
  | num (q : Rat)
  | str (s : String)
  | bool (b : Bool)
  | null
  | undefined
  deriving DecidableEq, Repr

/-- Characters trimmed by JavaScript ToNumber before parsing a string. -/
def isJsSpace (c : Char) : Bool :=
  c = ' ' || c = '\t' || c = '\n' || c = '\r'

/-- Leading decimal digits of a character list, with the rest. -/
def takeDigits : List Char → List Char × List Char
  | [] => ([], [])
  | c :: cs =>
    if c.isDigit then
      let p := takeDigits cs
      (c :: p.1, p.2)
    else ([], c :: cs)

/-- Value of a digit string, most significant first. -/
def digitsToNat (ds : List Char) : Nat :=
  ds.foldl (fun a c => a * 10 + (c.toNat - 48)) 0

/-- Unsigned decimal literal (digits, optionally a dot and fraction digits);
anything else is NaN. Exponent, hex and Infinity forms are outside the
fragment exercised by the backend's inputs. -/
def parseUnsigned (cs : List Char) : Option Rat :=
  let p := takeDigits cs
  match p.2 with
  | [] => if p.1 = [] then none else some (digitsToNat p.1 : Rat)
  | c :: rest =>
    if c = '.' then
      let q := takeDigits rest
      if q.2 = [] && !(p.1 = [] && q.1 = []) then
        some (mkRat (digitsToNat p.1 * 10 ^ q.1.length + digitsToNat q.1) (10 ^ q.1.length))
      else none
    else none

/-- JavaScript ToNumber on a string: trim whitespace, empty string is 0,
otherwise an optionally signed decimal literal, else NaN (`none`). -/
def strToNum (s : String) : Option Rat :=
  let cs := ((s.toList.dropWhile isJsSpace).reverse.dropWhile isJsSpace).reverse
  match cs with
  | [] => some 0
  | '+' :: rest => parseUnsigned rest
  | '-' :: rest => (parseUnsigned rest).map Neg.neg
  | _ => parseUnsigned cs

/-- JavaScript ToNumber (the coercion applied by `Number(x)`, `isNaN(x)` and
relational comparison against a number literal); `none` is NaN. -/
def toNumber : JSValue → Option Rat
  | .num q => some q
  | .str s => strToNum s
  | .bool b => some (if b then 1 else 0)
  | .null => some 0
  | .undefined => none

/-- The ten clinical fields of the diabetes model, in the order of the
`requiredFields` array in validation.js. -/
inductive Field where
  | Age
  | BMI
  | Waist_Circumference_cm
  | Fasting_Glucose_mg_dL
  | HbA1c_percent
  | Systolic_BP_mmHg
  | Diastolic_BP_mmHg
  | Family_History_Diabetes
  | Hypertension
  | Physical_Activity_Hours_Week
  deriving DecidableEq, Repr

/-- The `requiredFields` array of validation.js, in source order. -/
def requiredFields : List Field :=
  [.Age, .BMI, .Waist_Circumference_cm, .Fasting_Glucose_mg_dL,
   .HbA1c_percent, .Systolic_BP_mmHg, .Diastolic_BP_mmHg,
   .Family_History_Diabetes, .Hypertension, .Physical_Activity_Hours_Week]

/-- The request body seen by the validator: one JavaScript value per clinical
field (absent properties read as `undefined`). -/
structure PatientInput where
  Age : JSValue
  BMI : JSValue
  Waist_Circumference_cm : JSValue
  Fasting_Glucose_mg_dL : JSValue
  HbA1c_percent : JSValue
  Systolic_BP_mmHg : JSValue
  Diastolic_BP_mmHg : JSValue
  Family_History_Diabetes : JSValue
  Hypertension : JSValue
  Physical_Activity_Hours_Week : JSValue
  deriving DecidableEq, Repr

/-- Property lookup `patientData[field]`. -/
def PatientInput.get (p : PatientInput) : Field → JSValue
  | .Age => p.Age
  | .BMI => p.BMI
  | .Waist_Circumference_cm => p.Waist_Circumference_cm
  | .Fasting_Glucose_mg_dL => p.Fasting_Glucose_mg_dL
  | .HbA1c_percent => p.HbA1c_percent
  | .Systolic_BP_mmHg => p.Systolic_BP_mmHg
  | .Diastolic_BP_mmHg => p.Diastolic_BP_mmHg
  | .Family_History_Diabetes => p.Family_History_Diabetes
  | .Hypertension => p.Hypertension
  | .Physical_Activity_Hours_Week => p.Physical_Activity_Hours_Week

/-- The missing test of validation.js:
`patientData[field] === undefined || === null || === ''`. -/
def isMissing (v : JSValue) : Bool :=
  v = .undefined || v = .null || v = .str ""

/-- `requiredFields.filter(...)` — fields absent, null or empty-string. -/
def missingFields (p : PatientInput) : List Field :=
  requiredFields.filter (fun f => isMissing (p.get f))

/-- One numeric range check of validation.js:
`isNaN(v) || v < lo || v > hi`. Relational comparison of a JSValue against a
number literal coerces via ToNumber, and every comparison with NaN is false. -/
def numCheckFails (v : JSValue) (lo hi : Rat) : Bool :=
  match toNumber v with
  | none => true
  | some x => decide (x < lo) || decide (x > hi)

/-- The binary flag check of validation.js: `![0, 1].includes(Number(v))`. -/
def binaryCheckFails (v : JSValue) : Bool :=
  match toNumber v with
  | none => true
  | some x => !(decide (x = 0) || decide (x = 1))

/-- Per-field validation test, with the bounds of validation.js. -/
def fieldCheckFails : Field → JSValue → Bool
  | .Age, v => numCheckFails v 18 120
  | .BMI, v => numCheckFails v 10 60
  | .Waist_Circumference_cm, v => numCheckFails v 30 200
  | .Fasting_Glucose_mg_dL, v => numCheckFails v 50 500
  | .HbA1c_percent, v => numCheckFails v 3 20
  | .Systolic_BP_mmHg, v => numCheckFails v 70 300
  | .Diastolic_BP_mmHg, v => numCheckFails v 40 200
  | .Family_History_Diabetes, v => binaryCheckFails v
  | .Hypertension, v => binaryCheckFails v
  | .Physical_Activity_Hours_Week, v => numCheckFails v 0 50

/-- The message pushed onto `validationErrors` for each failing field. -/
def fieldErrorMsg : Field → String
  | .Age => "Age must be a number between 18 and 120"
  | .BMI => "BMI must be a number between 10 and 60"
  | .Waist_Circumference_cm => "Waist circumference must be between 30 and 200 cm"
  | .Fasting_Glucose_mg_dL => "Fasting glucose must be between 50 and 500 mg/dL"
  | .HbA1c_percent => "HbA1c must be between 3 and 20%"
  | .Systolic_BP_mmHg => "Systolic BP must be between 70 and 300 mmHg"
  | .Diastolic_BP_mmHg => "Diastolic BP must be between 40 and 200 mmHg"
  | .Family_History_Diabetes => "Family_History_Diabetes must be 0 or 1"
  | .Hypertension => "Hypertension must be 0 or 1"
  | .Physical_Activity_Hours_Week => "Physical activity must be between 0 and 50 hours per week"

/-- The `validationErrors` list: the checks run in the source in exactly the
order of `requiredFields`, each failing one appending its message. -/
def rangeErrors (p : PatientInput) : List String :=
  (requiredFields.filter (fun f => fieldCheckFails f (p.get f))).map fieldErrorMsg

/-- The normalized record written back to `req.body` on success: `Number(x)`
applied to every field. `none` is NaN (never produced for a validated input). -/
structure PatientRecord where
  Age : Option Rat
  BMI : Option Rat
  Waist_Circumference_cm : Option Rat
  Fasting_Glucose_mg_dL : Option Rat
  HbA1c_percent : Option Rat
  Systolic_BP_mmHg : Option Rat
  Diastolic_BP_mmHg : Option Rat
  Family_History_Diabetes : Option Rat
  Hypertension : Option Rat
  Physical_Activity_Hours_Week : Option Rat
  deriving DecidableEq, Repr

/-- The normalization block of validation.js (lines 110-121). -/
def normalize (p : PatientInput) : PatientRecord where
  Age := toNumber p.Age
  BMI := toNumber p.BMI
  Waist_Circumference_cm := toNumber p.Waist_Circumference_cm
  Fasting_Glucose_mg_dL := toNumber p.Fasting_Glucose_mg_dL
  HbA1c_percent := toNumber p.HbA1c_percent
  Systolic_BP_mmHg := toNumber p.Systolic_BP_mmHg
  Diastolic_BP_mmHg := toNumber p.Diastolic_BP_mmHg
  Family_History_Diabetes := toNumber p.Family_History_Diabetes
  Hypertension := toNumber p.Hypertension
  Physical_Activity_Hours_Week := toNumber p.Physical_Activity_Hours_Week

/-- Result of the `validatePredictionInput` middleware. -/
inductive ValidationResult where
  | missingError (missing : List Field)
  | rangeError (errors : List String)
  | ok (record : PatientRecord)
  deriving DecidableEq, Repr

/-- The `validatePredictionInput` middleware of validation.js: missing-field
check first (it returns 400 at once), then the range checks, then the
normalization and `next()`. -/
def validatePredictionInput (p : PatientInput) : ValidationResult :=
  if (missingFields p).length > 0 then .missingError (missingFields p)
  else if (rangeErrors p).length > 0 then .rangeError (rangeErrors p)
  else .ok (normalize p)

/-- JSON values of an endpoint response body (nested objects and arrays kept,
since recommendations are nested). -/
inductive JsonVal where
  | js (v : JSValue)
  | arr (xs : List JsonVal)
  | obj (kvs : List (String × JsonVal))

/-- A parsed JSON object: key-value pairs in insertion order, as a JavaScript
object records them. -/
abbrev JsonObj := List (String × JsonVal)

/-- Assignment of a key in an object spread `{...result, k: v}`: an existing
key keeps its position with the new value, a new key is appended. -/
def setKey (o : JsonObj) (k : String) (v : JsonVal) : JsonObj :=
  if o.any (fun kv => kv.1 = k) then
    o.map (fun kv => if kv.1 = k then (k, v) else kv)
  else o ++ [(k, v)]

/-- Property lookup on an object (first entry with the key). -/
def getKey : JsonObj → String → Option JsonVal
  | [], _ => none
  | kv :: t, k => if kv.1 = k then some kv.2 else getKey t k

/-- Outcome of one `invokeEndpoint` call followed by `JSON.parse` of its body:
either the call succeeded and the body parsed, or the call succeeded but
`JSON.parse` threw (a SyntaxError, which carries no `code` property), or
`invokeEndpoint` itself threw an AWS error with an optional `code`. -/
inductive EndpointOutcome where
  | ok (result : JsonObj)
  | parseFailure (message : String)
  | awsError (code : Option String) (message : String)

/-- The error classification chain in the catch handler of POST /predict
(prediction.js lines 136-155): status code and client message from the
error's `code`, defaulting to 500 / internal. -/
def classifyError (code : Option String) : Nat × String :=
  if code = some "ValidationException" then (400, "Invalid input data format")
  else if code = some "AccessDenied" then (403, "Access denied to SageMaker endpoint")
  else if code = some "ServiceUnavailable" then (503, "SageMaker service temporarily unavailable")
  else if code = some "ThrottlingException" then (429, "Too many requests - rate limit exceeded")
  else if code = some "ModelError" then (502, "Machine learning model error")
  else (500, "Internal server error")

/-- The JSON error body sent by the catch handler of POST /predict. `details`
is the original error message when NODE_ENV is development, else absent. -/
structure ErrorResponse where
  error : String
  request_id : String
  details : Option String
  timestamp : String
  processing_time_ms : Nat
  deriving Repr

/-- Per-request metadata of the single-prediction orchestrator: the generated
request id and the measured elapsed times, abstracted from Date.now(). -/
structure RequestMeta where
  requestId : String
  backendProcessingTime : Nat
  sagemakerResponseTime : Nat
  processedAt : String
  deriving Repr

/-- The keys the success path adds to (or overwrites in) the parsed endpoint
result. -/
def metadataKeys : List String :=
  ["request_id", "backend_processing_time_ms", "sagemaker_response_time_ms",
   "processed_at", "endpoint_used", "backend_version"]

/-- The `enhancedResult` object spread of POST /predict (lines 114-122). -/
def enhanceResult (result : JsonObj) (m : RequestMeta) (endpointName : String) : JsonObj :=
  setKey (setKey (setKey (setKey (setKey (setKey result
    "request_id" (.js (.str m.requestId)))
    "backend_processing_time_ms" (.js (.num (m.backendProcessingTime : Rat))))
    "sagemaker_response_time_ms" (.js (.num (m.sagemakerResponseTime : Rat))))
    "processed_at" (.js (.str m.processedAt)))
    "endpoint_used" (.js (.str endpointName)))
    "backend_version" (.js (.str "1.0.0"))

/-- Response of the POST /predict route: a validation failure from the
middleware, a success body, or a classified error body. -/
inductive PredictResponse where
  | missingResp (status : Nat) (error : String) (missing : List Field)
  | rangeResp (status : Nat) (error : String) (errors : List String)
  | success (status : Nat) (body : JsonObj)
  | errorResp (status : Nat) (resp : ErrorResponse)

/-- Result of one run of the POST /predict route: the HTTP response together
with the list of payloads sent to the inference endpoint during the run. -/
structure PredictOutput where
  response : PredictResponse
  sentPayloads : List PatientRecord

/-- The POST /predict route: the validation middleware runs first and on
failure responds 400 without reaching the handler; otherwise the handler
sends the normalized body to the endpoint once and either enhances the
parsed result or classifies the caught error. `isDev` is
`process.env.NODE_ENV === 'development'`. -/
def handlePredict (p : PatientInput) (out : EndpointOutcome) (m : RequestMeta)
    (endpointName timestamp : String) (isDev : Bool) : PredictOutput :=
  match validatePredictionInput p with
  | .missingError ms => ⟨.missingResp 400 "Missing required fields" ms, []⟩
  | .rangeError es => ⟨.rangeResp 400 "Invalid data ranges" es, []⟩
  | .ok record =>
    match out with
    | .ok result =>
      ⟨.success 200 (enhanceResult result m endpointName), [record]⟩
    | .parseFailure msg =>
      ⟨.errorResp (classifyError none).1
        ⟨(classifyError none).2, m.requestId, if isDev then some msg else none,
         timestamp, m.backendProcessingTime⟩, [record]⟩
    | .awsError code msg =>
      ⟨.errorResp (classifyError code).1
        ⟨(classifyError code).2, m.requestId, if isDev then some msg else none,
         timestamp, m.backendProcessingTime⟩, [record]⟩

/-- One entry of `batch_results`: the per-item try/catch of POST
/predict-batch pushes a success or a failed record for item i. -/
inductive BatchItemOutcome where
  | success (patient_index : Nat) (result : JsonObj)
  | failed (patient_index : Nat) (error : String)

/-- Tag test `r.status === 'success'`. -/
def BatchItemOutcome.isSuccess : BatchItemOutcome → Bool
  | .success _ _ => true
  | .failed _ _ => false

/-- Tag test `r.status === 'failed'`. -/
def BatchItemOutcome.isFailed : BatchItemOutcome → Bool
  | .success _ _ => false
  | .failed _ _ => true

/-- The `patient_index` carried by an outcome. -/
def BatchItemOutcome.patientIndex : BatchItemOutcome → Nat
  | .success i _ => i
  | .failed i _ => i

/-- The loop body of POST /predict-batch for item i: a successful call with a
parsable body yields a success entry; a thrown AWS error or JSON.parse
error yields a failed entry holding `error.message`. -/
def batchItem (i : Nat) (out : EndpointOutcome) : BatchItemOutcome :=
  match out with
  | .ok result => .success i result
  | .parseFailure msg => .failed i msg
  | .awsError _ msg => .failed i msg

/-- The aggregate body sent by POST /predict-batch on the happy path. -/
structure BatchSummary where
  batch_results : List BatchItemOutcome
  total_patients : Nat
  successful_predictions : Nat
  failed_predictions : Nat
  processed_at : String

/-- Response of the POST /predict-batch route. -/
inductive BatchResponse where
  | badRequest (status : Nat) (error : String)
  | ok (summary : BatchSummary)

/-- Result of one run of POST /predict-batch: the response plus the raw items
forwarded to the inference endpoint (one invocation per forwarded item). -/
structure BatchOutput where
  response : BatchResponse
  sentPayloads : List PatientInput

/-- The POST /predict-batch route (prediction.js lines 168-219).
`patients = none` models `req.body.patients` not being an array. Items are
forwarded to the endpoint as-is: the route applies no field validation.
`out i` is the outcome of the endpoint call for item i. -/
def handlePredictBatch :
    Option (List PatientInput) → (Nat → EndpointOutcome) → String → BatchOutput
  | none, _, _ =>
    ⟨.badRequest 400 "Invalid batch data - expecting array of patients", []⟩
  | some l, out, processedAt =>
    if l.length = 0 then
      ⟨.badRequest 400 "Invalid batch data - expecting array of patients", []⟩
    else if l.length > 10 then
      ⟨.badRequest 400 "Batch size limited to 10 patients", []⟩
    else
      let results := (List.range l.length).map (fun i => batchItem i (out i))
      ⟨.ok ⟨results, l.length,
        (results.filter (fun r => r.isSuccess)).length,
        (results.filter (fun r => r.isFailed)).length,
        processedAt⟩, l⟩

/-! Concrete sample data used in witnesses and counterexamples. -/

/-- The section-8 scenario record: Age 45, BMI 25.0, waist 85, glucose 95,
HbA1c 5.5, BP 120/80, flags 0, activity 5.0. -/
def scenarioInput : PatientInput :=
  ⟨.num 45, .num 25, .num 85, .num 95, .num (mkRat 11 2), .num 120, .num 80,
   .num 0, .num 0, .num 5⟩

/-- The normalized form of the scenario record: every value unchanged. -/
def scenarioRecord : PatientRecord :=
  ⟨some 45, some 25, some 85, some 95, some (mkRat 11 2), some 120, some 80,
   some 0, some 0, some 5⟩

/-- The scenario record with Age 15, below the valid range. -/
def badAgeInput : PatientInput :=
  { scenarioInput with Age := .num 15 }

/-- The scenario record with BMI absent and Age out of range. -/
def missingRangeInput : PatientInput :=
  { scenarioInput with BMI := .undefined, Age := .num 15 }

/-- Sample request metadata. -/
def metaSample : RequestMeta :=
  ⟨"req_1", 42, 17, "2026-10-11T00:00:00.000Z"⟩

/-- Sample parsed endpoint result. -/
def resultSample : JsonObj :=
  [("risk_level", .js (.str "Low Risk")), ("probability", .js (.num (mkRat 3 4)))]

/-- Two-item batch: the valid scenario record then the invalid one. -/
def batchTwo : List PatientInput :=
  [scenarioInput, badAgeInput]

/-- Sample per-item endpoint behaviour: item 0 fails with a ModelError, every
other item succeeds. -/
def outSample : Nat → EndpointOutcome :=
  fun i => if i = 0 then .awsError (some "ModelError") "model exploded"
           else .ok resultSample

/-- Endpoint behaviour that accepts anything and returns an empty object. -/
def outOkEmpty : Nat → EndpointOutcome :=
  fun _ => .ok []

/-! Helper lemmas. -/

theorem mem_requiredFields (f : Field) : f ∈ requiredFields := by
  cases f <;> simp [requiredFields]

theorem fieldErrorMsg_mem_rangeErrors (p : PatientInput) (f : Field)
    (h : fieldCheckFails f (p.get f) = true) :
    fieldErrorMsg f ∈ rangeErrors p := by
  exact List.mem_map_of_mem _ (List.mem_filter.mpr ⟨mem_requiredFields f, h⟩)

theorem rangeErrors_length_pos (p : PatientInput) (f : Field)
    (h : fieldCheckFails f (p.get f) = true) :
    0 < (rangeErrors p).length :=
  List.length_pos.mpr (List.ne_nil_of_mem (fieldErrorMsg_mem_rangeErrors p f h))

theorem validate_eq_rangeError (p : PatientInput)
    (h1 : missingFields p = []) (h2 : 0 < (rangeErrors p).length) :
    validatePredictionInput p = .rangeError (rangeErrors p) := by
  unfold validatePredictionInput
  rw [h1]
  simp only [List.length_nil, gt_iff_lt, lt_irrefl, if_false]
  rw [if_pos h2]

theorem validate_ne_ok_of_check_fails (q : PatientInput) (g : Field) (r : PatientRecord)
    (hg : fieldCheckFails g (q.get g) = true) :
    validatePredictionInput q ≠ .ok r := by
  unfold validatePredictionInput
  by_cases hm : (missingFields q).length > 0
  · simp [hm]
  · have h1 : missingFields q = [] :=
      List.length_eq_zero.mp (Nat.eq_zero_of_not_pos hm)
    have h2 := rangeErrors_length_pos q g hg
    simp [hm, h2]

theorem checkPasses_of_validate_ok (p : PatientInput) (r : PatientRecord) (f : Field)
    (h : validatePredictionInput p = .ok r) :
    fieldCheckFails f (p.get f) = false := by
  by_cases hf : fieldCheckFails f (p.get f) = true
  · exact absurd h (validate_ne_ok_of_check_fails p f r hf)
  · exact Bool.eq_false_iff.mpr hf

theorem record_eq_normalize_of_validate_ok (p : PatientInput) (r : PatientRecord)
    (h : validatePredictionInput p = .ok r) :
    r = normalize p := by
  unfold validatePredictionInput at h
  split at h
  · exact absurd h (by simp)
  · split at h
    · exact absurd h (by simp)
    · cases h
      rfl

theorem binaryCheck_passes (v : JSValue) (h : binaryCheckFails v = false) :
    toNumber v = some 0 ∨ toNumber v = some 1 := by
  cases hv : toNumber v with
  | none =>
    have ht : binaryCheckFails v = true := by simp only [binaryCheckFails, hv]
    rw [ht] at h
    exact absurd h (by simp)
  | some x =>
    by_cases h0 : x = 0
    · exact Or.inl (by rw [h0])
    by_cases h1 : x = 1
    · exact Or.inr (by rw [h1])
    have ht : binaryCheckFails v = true := by
      simp only [binaryCheckFails, hv]
      simp [h0, h1]
    rw [ht] at h
    exact absurd h (by simp)

/-! C1 -/

/-- C1: every input with all ten fields present and at least one field failing
its declared range check is rejected by the validator with a 400 range
error whose message list contains the failing field's message; the
inference endpoint is not invoked; and no input with a failing field ever
validates successfully. -/
theorem C1_out_of_range_rejected (p : PatientInput) (f : Field)
    (hpresent : missingFields p = [])
    (hfail : fieldCheckFails f (p.get f) = true) :
    validatePredictionInput p = .rangeError (rangeErrors p) ∧
    fieldErrorMsg f ∈ rangeErrors p ∧
    (∀ out m en ts d,
      (handlePredict p out m en ts d).response =
        .rangeResp 400 "Invalid data ranges" (rangeErrors p) ∧
      (handlePredict p out m en ts d).sentPayloads = []) ∧
    (∀ (q : PatientInput) (g : Field) (r : PatientRecord),
      fieldCheckFails g (q.get g) = true → validatePredictionInput q ≠ .ok r) := by
  have hv := validate_eq_rangeError p hpresent (rangeErrors_length_pos p f hfail)
  refine ⟨hv, fieldErrorMsg_mem_rangeErrors p f hfail, ?_, validate_ne_ok_of_check_fails⟩
  intro out m en ts d
  unfold handlePredict
  rw [hv]
  exact ⟨rfl, rfl⟩

/-- Witness for C1 at the Age-15 scenario input. -/
theorem C1_witness :
    missingFields badAgeInput = [] ∧
    fieldCheckFails Field.Age (badAgeInput.get Field.Age) = true ∧
    fieldErrorMsg Field.Age ∈ rangeErrors badAgeInput :=
  ⟨by decide, by decide,
   (C1_out_of_range_rejected badAgeInput Field.Age (by decide) (by decide)).2.1⟩

/-! C5 -/

/-- C5: an input with at least one missing field is rejected with exactly the
list of missing field names; a range-error response is never produced for
such an input, and the route answers 400 with the missing list only. -/
theorem C5_missing_fields_short_circuit (p : PatientInput)
    (h : missingFields p ≠ []) :
    validatePredictionInput p = .missingError (missingFields p) ∧
    (∀ es, validatePredictionInput p ≠ .rangeError es) ∧
    ∀ out m en ts d,
      (handlePredict p out m en ts d).response =
        .missingResp 400 "Missing required fields" (missingFields p) ∧
      (handlePredict p out m en ts d).sentPayloads = [] := by
  have hv : validatePredictionInput p = .missingError (missingFields p) := by
    unfold validatePredictionInput
    rw [if_pos (List.length_pos.mpr h)]
  refine ⟨hv, ?_, ?_⟩
  · intro es hcontra
    rw [hv] at hcontra
    exact absurd hcontra (by simp)
  · intro out m en ts d
    unfold handlePredict
    rw [hv]
    exact ⟨rfl, rfl⟩

/-- Witness for C5: BMI missing and Age simultaneously out of range yields the
missing-field failure alone. -/
theorem C5_witness :
    missingFields missingRangeInput ≠ [] ∧
    fieldCheckFails Field.Age (missingRangeInput.get Field.Age) = true ∧
    validatePredictionInput missingRangeInput = .missingError [Field.BMI] :=
  ⟨by decide, by decide,
   ((C5_missing_fields_short_circuit missingRangeInput (by decide)).1).trans (by decide)⟩

/-! C6 -/

/-- C6: a validated record equals the field-wise `Number` coercion of the
input — no other transformation — and its two flag fields are exactly 0
or 1. -/
theorem C6_normalization (p : PatientInput) (r : PatientRecord)
    (h : validatePredictionInput p = .ok r) :
    r = normalize p ∧
    r.Age = toNumber p.Age ∧
    r.BMI = toNumber p.BMI ∧
    r.Waist_Circumference_cm = toNumber p.Waist_Circumference_cm ∧
    r.Fasting_Glucose_mg_dL = toNumber p.Fasting_Glucose_mg_dL ∧
    r.HbA1c_percent = toNumber p.HbA1c_percent ∧
    r.Systolic_BP_mmHg = toNumber p.Systolic_BP_mmHg ∧
    r.Diastolic_BP_mmHg = toNumber p.Diastolic_BP_mmHg ∧
    r.Family_History_Diabetes = toNumber p.Family_History_Diabetes ∧
    r.Hypertension = toNumber p.Hypertension ∧
    r.Physical_Activity_Hours_Week = toNumber p.Physical_Activity_Hours_Week ∧
    (r.Family_History_Diabetes = some 0 ∨ r.Family_History_Diabetes = some 1) ∧
    (r.Hypertension = some 0 ∨ r.Hypertension = some 1) := by
  have hr := record_eq_normalize_of_validate_ok p r h
  subst hr
  have hfam := binaryCheck_passes p.Family_History_Diabetes
    (checkPasses_of_validate_ok p (normalize p) Field.Family_History_Diabetes h)
  have hhyp := binaryCheck_passes p.Hypertension
    (checkPasses_of_validate_ok p (normalize p) Field.Hypertension h)
  exact ⟨rfl, rfl, rfl, rfl, rfl, rfl, rfl, rfl, rfl, rfl, rfl, hfam, hhyp⟩

/-- Witness for C6: the section-8 scenario input validates and passes through
with every value unchanged. -/
theorem C6_witness :
    validatePredictionInput scenarioInput = .ok scenarioRecord ∧
    scenarioRecord = normalize scenarioInput ∧
    scenarioRecord.Age = some 45 ∧
    scenarioRecord.HbA1c_percent = some (mkRat 11 2) ∧
    scenarioRecord.Family_History_Diabetes = some 0 :=
  ⟨by decide,
   (C6_normalization scenarioInput scenarioRecord (by decide)).1,
   by decide, by decide, by decide⟩

/-! C10 -/

/-- C10: a binary flag value is accepted exactly when its JavaScript numeric
coercion is 0 or 1 — booleans and the strings written 0 and 1 pass and
normalize to 0 and 1, while 0.5, 2 and a non-numeric string are rejected
with the flag's range error. -/
theorem C10_binary_flag_coercion (v : JSValue) :
    (binaryCheckFails v = false ↔ (toNumber v = some 0 ∨ toNumber v = some 1)) ∧
    binaryCheckFails (.bool false) = false ∧
    binaryCheckFails (.bool true) = false ∧
    binaryCheckFails (.str "0") = false ∧
    binaryCheckFails (.str "1") = false ∧
    toNumber (.bool false) = some 0 ∧
    toNumber (.bool true) = some 1 ∧
    toNumber (.str "0") = some 0 ∧
    toNumber (.str "1") = some 1 ∧
    binaryCheckFails (.num (mkRat 1 2)) = true ∧
    binaryCheckFails (.num 2) = true ∧
    binaryCheckFails (.str "yes") = true ∧
    (∀ p r, validatePredictionInput p = .ok r →
      r.Family_History_Diabetes = toNumber p.Family_History_Diabetes ∧
      r.Hypertension = toNumber p.Hypertension) ∧
    (∀ p, fieldCheckFails Field.Family_History_Diabetes
        (PatientInput.get p Field.Family_History_Diabetes) = true →
      fieldErrorMsg Field.Family_History_Diabetes ∈ rangeErrors p) := by
  constructor
  · constructor
    · intro h
      exact binaryCheck_passes v h
    · intro h
      unfold binaryCheckFails
      rcases h with h | h <;> rw [h] <;> simp
  refine ⟨by decide, by decide, by decide, by decide, by decide, by decide,
    by decide, by decide, by decide, by decide, by decide, ?_, ?_⟩
  · intro p r h
    have hr := record_eq_normalize_of_validate_ok p r h
    subst hr
    exact ⟨rfl, rfl⟩
  · intro p h
    exact fieldErrorMsg_mem_rangeErrors p Field.Family_History_Diabetes h

/-! Object spread lemmas. -/

theorem getKey_map_setVal (o : JsonObj) (k kq : String) (v : JsonVal) (h : kq ≠ k) :
    getKey (o.map (fun kv => if kv.1 = k then (k, v) else kv)) kq = getKey o kq := by
  induction o with
  | nil => rfl
  | cons kv t ih =>
    by_cases hk : kv.1 = k
    · have h1 : ¬ (k = kq) := fun hc => h hc.symm
      have h2 : ¬ (kv.1 = kq) := by rw [hk]; exact h1
      simp only [List.map_cons, if_pos hk, getKey, if_neg h1, if_neg h2]
      exact ih
    · simp only [List.map_cons, if_neg hk, getKey]
      by_cases hq : kv.1 = kq
      · simp only [if_pos hq]
      · simp only [if_neg hq]
        exact ih

theorem getKey_append_single_ne (o : JsonObj) (k kq : String) (v : JsonVal) (h : kq ≠ k) :
    getKey (o ++ [(k, v)]) kq = getKey o kq := by
  induction o with
  | nil =>
    have h1 : ¬ (k = kq) := fun hc => h hc.symm
    simp only [List.nil_append, getKey, if_neg h1]
  | cons kv t ih =>
    simp only [List.cons_append, getKey]
    by_cases hq : kv.1 = kq
    · simp only [if_pos hq]
    · simp only [if_neg hq]
      exact ih

theorem getKey_setKey_ne (o : JsonObj) (k kq : String) (v : JsonVal) (h : kq ≠ k) :
    getKey (setKey o k v) kq = getKey o kq := by
  unfold setKey
  by_cases ha : o.any (fun kv => kv.1 = k) = true
  · simp only [ha, if_true]
    exact getKey_map_setVal o k kq v h
  · simp only [Bool.not_eq_true] at ha
    simp only [ha, if_false]
    exact getKey_append_single_ne o k kq v h

theorem getKey_map_setVal_self (o : JsonObj) (k : String) (v : JsonVal)
    (ha : o.any (fun kv => kv.1 = k) = true) :
    getKey (o.map (fun kv => if kv.1 = k then (k, v) else kv)) k = some v := by
  induction o with
  | nil => simp at ha
  | cons kv t ih =>
    by_cases hk : kv.1 = k
    · simp [List.map_cons, hk, getKey]
    · have ht : t.any (fun kv => kv.1 = k) = true := by
        simp only [List.any_cons, Bool.or_eq_true, decide_eq_true_eq] at ha
        rcases ha with ha | ha
        · exact absurd ha hk
        · simpa using ha
      simp only [List.map_cons, if_neg hk, getKey, if_neg hk]
      exact ih ht

theorem getKey_append_single_self (o : JsonObj) (k : String) (v : JsonVal)
    (ha : o.any (fun kv => kv.1 = k) = false) :
    getKey (o ++ [(k, v)]) k = some v := by
  induction o with
  | nil => simp [getKey]
  | cons kv t ih =>
    simp only [List.any_cons, Bool.or_eq_false_iff, decide_eq_false_iff_not] at ha
    simp only [List.cons_append, getKey, if_neg ha.1]
    exact ih (by simpa using ha.2)

theorem getKey_setKey_self (o : JsonObj) (k : String) (v : JsonVal) :
    getKey (setKey o k v) k = some v := by
  unfold setKey
  by_cases ha : o.any (fun kv => kv.1 = k) = true
  · simp only [ha, if_true]
    exact getKey_map_setVal_self o k v ha
  · simp only [Bool.not_eq_true] at ha
    simp only [ha, if_false]
    exact getKey_append_single_self o k v ha

theorem getKey_enhanceResult_not_meta (result : JsonObj) (m : RequestMeta) (en k : String)
    (h : k ∉ metadataKeys) :
    getKey (enhanceResult result m en) k = getKey result k := by
  simp only [metadataKeys, List.mem_cons, List.not_mem_nil, not_or, or_false] at h
  obtain ⟨h1, h2, h3, h4, h5, h6⟩ := h
  unfold enhanceResult
  rw [getKey_setKey_ne _ _ _ _ h6, getKey_setKey_ne _ _ _ _ h5,
      getKey_setKey_ne _ _ _ _ h4, getKey_setKey_ne _ _ _ _ h3,
      getKey_setKey_ne _ _ _ _ h2, getKey_setKey_ne _ _ _ _ h1]

/-! C9 -/

/-- C9: on a successful single prediction the response is the parsed endpoint
result with exactly the metadata keys added (request id, pipeline latency,
endpoint latency, completion timestamp, endpoint and version tags) — every
other key of the endpoint result reads through unchanged — and on any
failure the error body carries the same request id and the elapsed
processing time. -/
theorem C9_response_frame (p : PatientInput) (rec : PatientRecord) (result : JsonObj)
    (m : RequestMeta) (en ts : String) (d : Bool)
    (hvalid : validatePredictionInput p = .ok rec) :
    (handlePredict p (.ok result) m en ts d).response =
      .success 200 (enhanceResult result m en) ∧
    (∀ k, k ∉ metadataKeys →
      getKey (enhanceResult result m en) k = getKey result k) ∧
    getKey (enhanceResult result m en) "request_id" =
      some (.js (.str m.requestId)) ∧
    getKey (enhanceResult result m en) "backend_processing_time_ms" =
      some (.js (.num (m.backendProcessingTime : Rat))) ∧
    getKey (enhanceResult result m en) "sagemaker_response_time_ms" =
      some (.js (.num (m.sagemakerResponseTime : Rat))) ∧
    getKey (enhanceResult result m en) "processed_at" =
      some (.js (.str m.processedAt)) ∧
    getKey (enhanceResult result m en) "endpoint_used" =
      some (.js (.str en)) ∧
    getKey (enhanceResult result m en) "backend_version" =
      some (.js (.str "1.0.0")) ∧
    (∀ code msg, (handlePredict p (.awsError code msg) m en ts d).response =
      .errorResp (classifyError code).1
        ⟨(classifyError code).2, m.requestId, if d then some msg else none, ts,
         m.backendProcessingTime⟩) ∧
    (∀ msg, (handlePredict p (.parseFailure msg) m en ts d).response =
      .errorResp (classifyError none).1
        ⟨(classifyError none).2, m.requestId, if d then some msg else none, ts,
         m.backendProcessingTime⟩) := by
  refine ⟨?_, fun k hk => getKey_enhanceResult_not_meta result m en k hk,
    ?_, ?_, ?_, ?_, ?_, ?_, ?_, ?_⟩
  · unfold handlePredict
    rw [hvalid]
  · unfold enhanceResult
    rw [getKey_setKey_ne _ _ _ _ (by decide), getKey_setKey_ne _ _ _ _ (by decide),
        getKey_setKey_ne _ _ _ _ (by decide), getKey_setKey_ne _ _ _ _ (by decide),
        getKey_setKey_ne _ _ _ _ (by decide), getKey_setKey_self]
  · unfold enhanceResult
    rw [getKey_setKey_ne _ _ _ _ (by decide), getKey_setKey_ne _ _ _ _ (by decide),
        getKey_setKey_ne _ _ _ _ (by decide), getKey_setKey_ne _ _ _ _ (by decide),
        getKey_setKey_self]
  · unfold enhanceResult
    rw [getKey_setKey_ne _ _ _ _ (by decide), getKey_setKey_ne _ _ _ _ (by decide),
        getKey_setKey_ne _ _ _ _ (by decide), getKey_setKey_self]
  · unfold enhanceResult
    rw [getKey_setKey_ne _ _ _ _ (by decide), getKey_setKey_ne _ _ _ _ (by decide),
        getKey_setKey_self]
  · unfold enhanceResult
    rw [getKey_setKey_ne _ _ _ _ (by decide), getKey_setKey_self]
  · unfold enhanceResult
    rw [getKey_setKey_self]
  · intro code msg
    unfold handlePredict
    rw [hvalid]
  · intro msg
    unfold handlePredict
    rw [hvalid]

/-- Witness for C9 at the scenario input and a concrete endpoint result. -/
theorem C9_witness :
    validatePredictionInput scenarioInput = .ok scenarioRecord ∧
    (handlePredict scenarioInput (.ok resultSample) metaSample "ep" "ts" true).response =
      .success 200 (enhanceResult resultSample metaSample "ep") ∧
    getKey (enhanceResult resultSample metaSample "ep") "risk_level" =
      getKey resultSample "risk_level" := by
  have h := C9_response_frame scenarioInput scenarioRecord resultSample metaSample
    "ep" "ts" true (by decide)
  exact ⟨by decide, h.1, h.2.1 "risk_level" (by decide)⟩

/-! C3 -/

/-- C3: the catch handler classifies every failure into exactly one status and
message — ValidationException to 400, AccessDenied to 403,
ServiceUnavailable to 503, ThrottlingException to 429, ModelError to 502,
and every other code to the internal 500 — and in development mode the
original failure message is carried in the response as `details`. -/
theorem C3_error_classifier_total (code : Option String) (msg : String)
    (p : PatientInput) (r : PatientRecord) (m : RequestMeta) (en ts : String)
    (hvalid : validatePredictionInput p = .ok r) :
    classifyError (some "ValidationException") = (400, "Invalid input data format") ∧
    classifyError (some "AccessDenied") = (403, "Access denied to SageMaker endpoint") ∧
    classifyError (some "ServiceUnavailable") =
      (503, "SageMaker service temporarily unavailable") ∧
    classifyError (some "ThrottlingException") =
      (429, "Too many requests - rate limit exceeded") ∧
    classifyError (some "ModelError") = (502, "Machine learning model error") ∧
    (code ∉ ([some "ValidationException", some "AccessDenied",
        some "ServiceUnavailable", some "ThrottlingException",
        some "ModelError"] : List (Option String)) →
      classifyError code = (500, "Internal server error")) ∧
    (handlePredict p (.awsError code msg) m en ts true).response =
      .errorResp (classifyError code).1
        ⟨(classifyError code).2, m.requestId, some msg, ts,
         m.backendProcessingTime⟩ := by
  refine ⟨by decide, by decide, by decide, by decide, by decide, ?_, ?_⟩
  · intro hmem
    simp only [List.mem_cons, List.not_mem_nil, not_or, or_false] at hmem
    obtain ⟨n1, n2, n3, n4, n5⟩ := hmem
    unfold classifyError
    rw [if_neg n1, if_neg n2, if_neg n3, if_neg n4, if_neg n5]
  · unfold handlePredict
    rw [hvalid]
    rfl

/-- Witness for C3 at an unclassified error code in development mode. -/
theorem C3_witness :
    validatePredictionInput scenarioInput = .ok scenarioRecord ∧
    classifyError (some "SomethingElse") = (500, "Internal server error") ∧
    (handlePredict scenarioInput (.awsError (some "SomethingElse") "boom")
        metaSample "ep" "ts" true).response =
      .errorResp 500 ⟨"Internal server error", "req_1", some "boom", "ts", 42⟩ := by
  have h := C3_error_classifier_total (some "SomethingElse") "boom" scenarioInput
    scenarioRecord metaSample "ep" "ts" (by decide)
  refine ⟨by decide, h.2.2.2.2.2.1 (by decide), ?_⟩
  have h7 := h.2.2.2.2.2.2
  rw [h.2.2.2.2.2.1 (by decide)] at h7
  exact h7

/-! C7 -/

/-- C7 counterexample: when the endpoint call succeeds but the body fails to
parse, the pipeline answers with the generic internal 500 response — the
very same response an unclassified AWS failure produces — not with any
distinct malformed-response service-error kind. -/
theorem C7_counterexample :
    (handlePredict scenarioInput (.parseFailure "Unexpected token u in JSON")
        metaSample "ep" "ts" true).response =
      .errorResp 500 ⟨"Internal server error", "req_1",
        some "Unexpected token u in JSON", "ts", 42⟩ ∧
    (handlePredict scenarioInput (.parseFailure "Unexpected token u in JSON")
        metaSample "ep" "ts" true).response =
      (handlePredict scenarioInput (.awsError none "Unexpected token u in JSON")
        metaSample "ep" "ts" true).response :=
  ⟨rfl, rfl⟩

/-- C7 amended: a response body that fails to parse as JSON raises an error
with no recognized code, so it is classified as the internal kind with
status 500 and the generic message, indistinguishable from any other
unclassified failure; the parse message survives only as development-mode
details. -/
theorem C7_parse_failure_is_internal (p : PatientInput) (rec : PatientRecord)
    (msg : String) (m : RequestMeta) (en ts : String) (d : Bool)
    (hvalid : validatePredictionInput p = .ok rec) :
    (handlePredict p (.parseFailure msg) m en ts d).response =
      .errorResp 500 ⟨"Internal server error", m.requestId,
        if d then some msg else none, ts, m.backendProcessingTime⟩ ∧
    (handlePredict p (.parseFailure msg) m en ts d).response =
      (handlePredict p (.awsError none msg) m en ts d).response := by
  constructor
  · unfold handlePredict
    rw [hvalid]
    rfl
  · unfold handlePredict
    rw [hvalid]

/-- Witness for the amended C7 at the scenario input. -/
theorem C7_witness :
    validatePredictionInput scenarioInput = .ok scenarioRecord ∧
    (handlePredict scenarioInput (.parseFailure "bad json") metaSample "ep" "ts"
        false).response =
      .errorResp 500 ⟨"Internal server error", "req_1", none, "ts", 42⟩ := by
  have h := C7_parse_failure_is_internal scenarioInput scenarioRecord "bad json"
    metaSample "ep" "ts" false (by decide)
  exact ⟨by decide, h.1⟩

/-! C2 -/

theorem filter_success_failed_length (l : List BatchItemOutcome) :
    (l.filter (fun r => r.isSuccess)).length +
      (l.filter (fun r => r.isFailed)).length = l.length := by
  induction l with
  | nil => rfl
  | cons a t ih =>
    cases a <;>
      simp [List.filter_cons, BatchItemOutcome.isSuccess, BatchItemOutcome.isFailed] at ih ⊢ <;>
      omega

/-- C2: a batch of N items, 1 ≤ N ≤ 10, yields exactly N outcomes in input
order, outcome i carrying patient index i and tagged success with the
parsed result or failed with the error message according to item i's own
endpoint outcome; every item is forwarded regardless of other items'
failures, and successes plus failures equal the total equal N. -/
theorem C2_batch_outcomes (l : List PatientInput) (out : Nat → EndpointOutcome)
    (ts : String) (h1 : 1 ≤ l.length) (h2 : l.length ≤ 10) :
    ∃ s : BatchSummary,
      (handlePredictBatch (some l) out ts).response = .ok s ∧
      s.batch_results.length = l.length ∧
      s.total_patients = l.length ∧
      (∀ i, ∀ hi : i < s.batch_results.length,
        s.batch_results[i] = batchItem i (out i)) ∧
      (∀ i, ∀ hi : i < s.batch_results.length,
        (s.batch_results[i]).patientIndex = i) ∧
      s.successful_predictions + s.failed_predictions = s.total_patients ∧
      (handlePredictBatch (some l) out ts).sentPayloads = l := by
  have hne : ¬ l.length = 0 := by omega
  have hgt : ¬ l.length > 10 := by omega
  simp only [handlePredictBatch]
  rw [if_neg hne, if_neg hgt]
  refine ⟨_, rfl, ?_, rfl, ?_, ?_, ?_, rfl⟩
  · simp
  · intro i hi
    simp only [List.length_map, List.length_range] at hi
    simp [List.getElem_map, List.getElem_range]
  · intro i hi
    simp only [List.length_map, List.length_range] at hi
    simp only [List.getElem_map, List.getElem_range]
    cases out i <;> rfl
  · rw [filter_success_failed_length]
    simp

/-- Witness for C2 on a two-item batch whose first item fails with a
ModelError and whose second succeeds. -/
theorem C2_witness :
    1 ≤ batchTwo.length ∧ batchTwo.length ≤ 10 ∧
    ∃ s : BatchSummary,
      (handlePredictBatch (some batchTwo) outSample "t").response = .ok s ∧
      s.batch_results.length = batchTwo.length ∧
      s.successful_predictions + s.failed_predictions = s.total_patients := by
  refine ⟨by decide, by decide, ?_⟩
  obtain ⟨s, hs1, hs2, hs3, hs4, hs5, hs6, hs7⟩ :=
    C2_batch_outcomes batchTwo outSample "t" (by decide) (by decide)
  exact ⟨s, hs1, hs2, hs6⟩

/-! C4 -/

/-- C4: a batch body that is not an array, an empty array, or more than 10
items fails at once with the corresponding 400 structural error and zero
endpoint calls. -/
theorem C4_batch_structural_errors (patients : Option (List PatientInput))
    (out : Nat → EndpointOutcome) (ts : String)
    (h : patients = none ∨ patients = some [] ∨
      ∃ l, patients = some l ∧ l.length > 10) :
    (handlePredictBatch patients out ts).sentPayloads = [] ∧
    ((patients = none ∨ patients = some []) →
      (handlePredictBatch patients out ts).response =
        .badRequest 400 "Invalid batch data - expecting array of patients") ∧
    (∀ l, patients = some l → l.length > 10 →
      (handlePredictBatch patients out ts).response =
        .badRequest 400 "Batch size limited to 10 patients") := by
  rcases h with h | h | ⟨l, h, hl⟩ <;> subst h
  · exact ⟨rfl, fun _ => rfl, fun l hl => by cases hl⟩
  · refine ⟨rfl, fun _ => rfl, ?_⟩
    intro l hl hlen
    cases hl
    simp at hlen
  · have hne : ¬ l.length = 0 := by omega
    refine ⟨?_, ?_, ?_⟩
    · simp only [handlePredictBatch]
      rw [if_neg hne, if_pos hl]
    · intro hc
      rcases hc with hc | hc
      · cases hc
      · cases hc
        simp at hl
    · intro l2 hl2 hlen2
      cases hl2
      simp only [handlePredictBatch]
      rw [if_neg hne, if_pos hl]

/-- Witness for C4 at the empty batch. -/
theorem C4_witness :
    (some ([] : List PatientInput) = none ∨
      some ([] : List PatientInput) = some [] ∨
      ∃ l, some ([] : List PatientInput) = some l ∧ l.length > 10) ∧
    (handlePredictBatch (some ([] : List PatientInput)) outSample "t").sentPayloads = [] ∧
    (handlePredictBatch (some ([] : List PatientInput)) outSample "t").response =
      .badRequest 400 "Invalid batch data - expecting array of patients" := by
  have h := C4_batch_structural_errors (some []) outSample "t" (Or.inr (Or.inl rfl))
  exact ⟨Or.inr (Or.inl rfl), h.1, h.2.1 (Or.inr rfl)⟩

/-! C8 -/

/-- C8 counterexample: the Age-15 record fails field validation (in single
mode it triggers zero endpoint calls), yet in batch mode the very same raw
record is forwarded to the inference endpoint. -/
theorem C8_counterexample :
    validatePredictionInput badAgeInput =
      .rangeError ["Age must be a number between 18 and 120"] ∧
    (handlePredict badAgeInput (.ok []) metaSample "ep" "ts" true).sentPayloads = [] ∧
    (handlePredictBatch (some [badAgeInput]) outOkEmpty "ts").sentPayloads =
      [badAgeInput] ∧
    (handlePredictBatch (some [badAgeInput]) outOkEmpty "ts").response =
      .ok ⟨[.success 0 []], 1, 1, 0, "ts"⟩ :=
  ⟨by decide, rfl, rfl, rfl⟩

/-- C8 amended: the batch route forwards every item of a size-1..10 batch to
the inference endpoint verbatim, without running the Field Validator on
any item; field validation is applied only on the single-prediction path. -/
theorem C8_batch_skips_validation (l : List PatientInput)
    (out : Nat → EndpointOutcome) (ts : String)
    (h1 : 1 ≤ l.length) (h2 : l.length ≤ 10) :
    (handlePredictBatch (some l) out ts).sentPayloads = l := by
  have hne : ¬ l.length = 0 := by omega
  have hgt : ¬ l.length > 10 := by omega
  simp only [handlePredictBatch]
  rw [if_neg hne, if_neg hgt]

/-- Witness for the amended C8: the invalid Age-15 record is forwarded. -/
theorem C8_witness :
    1 ≤ [badAgeInput].length ∧ [badAgeInput].length ≤ 10 ∧
    (handlePredictBatch (some [badAgeInput]) outOkEmpty "ts").sentPayloads =
      [badAgeInput] :=
  ⟨by decide, by decide,
   C8_batch_skips_validation [badAgeInput] outOkEmpty "ts" (by decide) (by decide)⟩

end DiabetesPrediction
